import Mathlib

/-!
Verification of the recording-session controller of `screenpro.py`.

The program builds shell-command strings, tokenizes them with `shlex.split`
(POSIX mode), and orchestrates a single child process through
start / pause / resume / stop, with a stop-time postprocessing pipeline
(splash clip, concat manifest, concatenation, cleanup).

This file gives a shallow embedding of:
  - the POSIX `shlex.split` tokenizer (as used by `shlex.split(cmd)`),
  - the command builders `build_cmd_x11`, `build_cmd_wayland`, and the
    splash / concat command templates inlined in `stop_recording`,
  - the Python string helpers the code relies on (`str.replace`,
    `str.strip`, `os.path.join`),
  - the session state (`proc`, `output_file`, `title_text`, `paused`, and
    the tk string variables `output_dir`, `fps`, `size_str`) and the three
    handlers `start_recording`, `toggle_pause`, `stop_recording` as
    functions from an environment oracle (outcomes of the external calls:
    signal delivery, bounded wait, subprocess runs, file removals) and a
    state to a new state plus a trace of observable events.
-/

namespace ScreenPro

/-- The single-quote character (codepoint 39). -/
def sqC : Char := Char.ofNat 39

/-- The double-quote character (codepoint 34). -/
def dqC : Char := Char.ofNat 34

/-- The backslash character (codepoint 92). -/
def bsC : Char := Char.ofNat 92

/-- One-character string holding a single quote. -/
def sq : String := String.singleton sqC

/-- One-character string holding a double quote. -/
def dq : String := String.singleton dqC

/-! ## POSIX `shlex.split`

Model of CPython `shlex.split(s)`: `posix=True`, `whitespace_split=True`,
no comment characters.  Outside quotes a backslash escapes the next
character; single quotes quote everything literally; inside double quotes
a backslash escapes only a double quote or a backslash, otherwise it is
kept.  An unterminated quote or a trailing escape raises `ValueError`,
modelled as `none`. -/

/-- Lexer mode of the `shlex` state machine. -/
inductive SMode where
  | normal | single | double | escaped | dqEscaped
  deriving DecidableEq, Repr

/-- State of the `shlex` tokenizer: current mode, characters of the token
being built, whether a (possibly empty, if quoted) token is in progress,
and the completed tokens so far. -/
structure SplitState where
  mode : SMode
  acc : List Char
  hasTok : Bool
  toks : List (List Char)
  deriving DecidableEq, Repr

/-- The whitespace characters of `shlex.whitespace`. -/
def isWs (c : Char) : Bool := c = ' ' || c = '\t' || c = '\r' || c = '\n'

/-- One transition of the `shlex` tokenizer. -/
def shlexStep (st : SplitState) (c : Char) : SplitState :=
  match st.mode with
  | .normal =>
    if isWs c then
      if st.hasTok then ⟨.normal, [], false, st.toks ++ [st.acc]⟩
      else st
    else if c = sqC then { st with mode := .single, hasTok := true }
    else if c = dqC then { st with mode := .double, hasTok := true }
    else if c = bsC then { st with mode := .escaped, hasTok := true }
    else { st with acc := st.acc ++ [c], hasTok := true }
  | .single =>
    if c = sqC then { st with mode := .normal }
    else { st with acc := st.acc ++ [c] }
  | .double =>
    if c = dqC then { st with mode := .normal }
    else if c = bsC then { st with mode := .dqEscaped }
    else { st with acc := st.acc ++ [c] }
  | .escaped => { st with mode := .normal, acc := st.acc ++ [c] }
  | .dqEscaped =>
    if c = dqC || c = bsC then { st with mode := .double, acc := st.acc ++ [c] }
    else { st with mode := .double, acc := st.acc ++ [bsC, c] }

/-- Initial tokenizer state. -/
def initSplit : SplitState := ⟨.normal, [], false, []⟩

/-- Run the tokenizer over a character list. -/
def runSeg (st : SplitState) (l : List Char) : SplitState := l.foldl shlexStep st

/-- End of input: an open quote or dangling escape is a `ValueError`. -/
def finalizeSplit (st : SplitState) : Option (List (List Char)) :=
  match st.mode with
  | .normal => some (if st.hasTok then st.toks ++ [st.acc] else st.toks)
  | _ => none

/-- Run the tokenizer over a string. -/
def runStr (st : SplitState) (s : String) : SplitState := runSeg st s.data

/-- `shlex.split` on a string: `none` models a raised `ValueError`. -/
def shlexSplit (s : String) : Option (List String) :=
  (finalizeSplit (runStr initSplit s)).map (List.map String.mk)

/-! ## Python string helpers -/

/-- Left-to-right non-overlapping replacement of every occurrence of
`pat` by `rep`, with structural fuel (the fuel is always at least the
length of the list, so the `0` case is unreachable). -/
def replaceLoop (pat rep : List Char) : Nat → List Char → List Char
  | 0, l => l
  | _ + 1, [] => []
  | n + 1, c :: rest =>
    if pat.isPrefixOf (c :: rest) then
      rep ++ replaceLoop pat rep n (rest.drop (pat.length - 1))
    else c :: replaceLoop pat rep n rest

/-- Python `s.replace(pat, rep)` (all occurrences, left to right,
non-overlapping; `pat` nonempty). -/
def pyReplace (s pat rep : String) : String :=
  ⟨replaceLoop pat.data rep.data s.data.length s.data⟩

/-- Python `s.strip()` (whitespace removed at both ends). -/
def pyStrip (s : String) : String :=
  ⟨((s.data.dropWhile Char.isWhitespace).reverse.dropWhile
      Char.isWhitespace).reverse⟩

/-- Python `os.path.join(a, b)` for POSIX paths. -/
def pyJoin (a b : String) : String :=
  if ("/").data.isPrefixOf b.data then b
  else if a = "" then b
  else if ("/").data.isSuffixOf a.data then a ++ b
  else a ++ "/" ++ b

/-! ## Command builders (`build_cmd_x11`, `build_cmd_wayland`, and the
splash / concat templates inlined in `stop_recording`) -/

/-- `webcam_w` in `build_cmd_x11`. -/
def webcam_w : Nat := 300

/-- `webcam_h` in `build_cmd_x11`. -/
def webcam_h : Nat := 300

/-- `x_pos` in `build_cmd_x11`. -/
def x_pos : String := "(main_w-overlay_w-20)"

/-- `y_pos` in `build_cmd_x11`. -/
def y_pos : String := "20"

/-- `build_cmd_x11(out_path, fps, size_str, display, audio, webcam)`:
screen + audio + webcam overlay command string. -/
def build_cmd_x11 (out_path fps size_str : String) (display : String := ":0.0")
    (audio : String := "default") (webcam : String := "/dev/video0") : String :=
  "ffmpeg -y " ++
  ("-video_size " ++ size_str ++ " -framerate " ++ fps ++ " -f x11grab -i " ++
    display ++ " ") ++
  ("-f v4l2 -video_size " ++ toString webcam_w ++ "x" ++ toString webcam_h ++
    " -i " ++ webcam ++ " ") ++
  ("-f pulse -thread_queue_size 512 -ac 2 -i " ++ audio ++ " ") ++
  ("-filter_complex " ++ dq ++ "[0:v][1:v] overlay=" ++ x_pos ++ ":" ++ y_pos ++
    "[v]" ++ dq ++ " ") ++
  ("-map " ++ dq ++ "[v]" ++ dq ++ " -map 2:a ") ++
  "-c:v libx264 -preset veryfast -pix_fmt yuv420p -crf 23 " ++
  "-c:a aac -b:a 160k " ++
  (dq ++ out_path ++ dq)

/-- `build_cmd_wayland(out_path, fps, size_str, audio)`: wf-recorder
fallback command string (note: `size_str` is not used by the source). -/
def build_cmd_wayland (out_path fps size_str : String)
    (audio : String := "default") : String :=
  ("wf-recorder -f " ++ dq ++ out_path ++ dq ++ " ") ++
  ("--audio=" ++ audio ++ " --framerate " ++ fps ++ " --pixel-format yuv420p")

/-- The transient splash clip path used in `stop_recording`. -/
def splash_file : String := "splash.mp4"

/-- The splash-clip command string built in `stop_recording` from
`self.size_str.get()` and `self.title_text` (no escaping of the title). -/
def cmd_splash (size_str title_text : String) : String :=
  ("ffmpeg -y -f lavfi -i color=c=black:s=" ++ size_str ++ ":d=5 ") ++
  "-f lavfi -i anullsrc=r=44100:cl=stereo " ++
  ("-vf " ++ dq ++ "drawtext=text=" ++ sq ++ title_text ++ sq ++
    ":fontcolor=white:fontsize=48:x=(w-text_w)/2:y=(h-text_h)/2" ++ dq ++ " ") ++
  ("-c:v libx264 -c:a aac -shortest " ++ dq ++ splash_file ++ dq)

/-- The concat command string built in `stop_recording`. -/
def cmd_concat (final_file : String) : String :=
  "ffmpeg -y -f concat -safe 0 -i concat_list.txt -c copy " ++
  dq ++ final_file ++ dq

/-- The transient concat manifest path used in `stop_recording`. -/
def concat_list : String := "concat_list.txt"

/-- The manifest content written in `stop_recording`: one
`file <path>` line per input, in order (two `f.write` calls). -/
def manifestContent (out : String) : String :=
  ("file " ++ sq ++ splash_file ++ sq ++ "\n") ++
  ("file " ++ sq ++ out ++ sq ++ "\n")

/-! ## Session state, events, environments and handlers

The handlers are embedded as functions from an environment oracle (the
outcomes of every external call the handler makes) and the current state
to the new state together with a trace of observable events, in the order
the source performs them.  Dialog boxes, button reconfiguration and
`print` calls are not session state; of the UI only the status line and
the log / filesystem / process effects are traced. -/

/-- Observable effects of a handler, in program order. -/
inductive Event where
  /-- `self.status.set(...)` -/
  | status (msg : String)
  /-- `messagebox.showwarning` -/
  | warn (msg : String)
  /-- `messagebox.showerror` -/
  | err (msg : String)
  /-- `log_event(...)`: one appended log line -/
  | logev (msg : String)
  /-- `os.makedirs(d, exist_ok=True)` -/
  | makedirs (d : String)
  /-- `subprocess.Popen(args, ...)` succeeded -/
  | spawned (args : List String)
  /-- `self.proc.send_signal(...)` succeeded -/
  | sentSig (sig : String)
  /-- `self.proc.stdin.write(s)` + flush succeeded -/
  | stdinWrote (s : String)
  /-- `self.proc.wait(timeout=t)` (`t = none`: unconditional) returned,
  i.e. the exit status of the child was collected -/
  | waited (t : Option Nat)
  /-- `self.proc.kill()` -/
  | killed
  /-- `subprocess.run(args, check=True, ...)` ran -/
  | ran (args : List String)
  /-- wrote `content` to file `path` -/
  | wroteFile (path content : String)
  /-- `os.remove(path)` succeeded -/
  | removed (path : String)
  deriving DecidableEq, Repr

/-- The session fields of `RecorderGUI`: the child handle `self.proc`
(modelled by its pid), `self.output_file` (`None` initially),
`self.title_text`, `self.paused`, and the tk string variables
`self.output_dir`, `self.fps`, `self.size_str`. -/
structure GuiState where
  proc : Option Nat
  output_file : Option String
  title_text : String
  paused : Bool
  output_dir : String
  fps : String
  size_str : String
  deriving DecidableEq, Repr

/-- Outcomes of the external calls made by `stop_recording`: which
backend `is_wayland()` reports, whether `self.proc.stdin` is truthy,
and which of the fallible calls raise. -/
structure StopEnv where
  wayland : Bool
  stdinOpen : Bool
  stdinWriteFails : Bool
  sigintFails : Bool
  /-- `self.proc.wait(timeout=20)` raises `subprocess.TimeoutExpired` -/
  waitTimesOut : Bool
  /-- the splash `subprocess.run(..., check=True)` raises -/
  splashRunFails : Bool
  /-- the concat `subprocess.run(..., check=True)` raises -/
  concatRunFails : Bool
  rmSplashFails : Bool
  rmManifestFails : Bool
  rmRawFails : Bool
  /-- `os.path.exists(self.output_file)` after postprocessing -/
  finalExists : Bool
  deriving DecidableEq, Repr

/-- The `Recording… (Ctrl+Q to stop)` status line. -/
def recordingMsg : String := "Recording… (Ctrl+Q to stop)"

/-- The graceful-termination request of `stop_recording` (source lines
203-211): `SIGINT` on Wayland; on X11 a `q` written to the child stdin,
falling back to `SIGINT` if the write raises.  Returns the events of the
calls that succeeded and whether the step raised (reaching the outer
`except`). -/
def gracefulStep (env : StopEnv) : List Event × Bool :=
  if env.wayland then
    if env.sigintFails then ([], true) else ([.sentSig "SIGINT"], false)
  else
    if env.stdinOpen then
      if env.stdinWriteFails then
        if env.sigintFails then ([], true) else ([.sentSig "SIGINT"], false)
      else ([.stdinWrote "q\n"], false)
    else ([], false)

/-- The reaping step of `stop_recording` (source lines 213-217):
`wait(timeout=20)`, and on `TimeoutExpired` a `kill()` followed by an
unconditional `wait()`. -/
def waitStep (env : StopEnv) : List Event :=
  if env.waitTimesOut then [.killed, .waited none] else [.waited (some 20)]

/-- The postprocessing sequence of `stop_recording` (source lines
219-250): build and run the splash command, write the concat manifest,
run the concat command, remove the splash clip, the manifest and the raw
recording, reassign `self.output_file`, and report.  Returns the value of
the `output_file` field when the block ends (normally or by raising), the
events performed, and whether it raised.  `self.output_file = None` would
make `.replace` raise `AttributeError`; a `shlex.split` returning `none`
models its `ValueError`. -/
def postStep (env : StopEnv) (s : GuiState) : Option String × List Event × Bool :=
  match s.output_file with
  | none => (none, [], true)
  | some out =>
    let final_file := pyReplace out ".mp4" "_final.mp4"
    match shlexSplit (cmd_splash s.size_str s.title_text) with
    | none => (some out, [], true)
    | some sargs =>
      if env.splashRunFails then (some out, [.ran sargs], true) else
      let tr1 : List Event := [.ran sargs, .wroteFile concat_list (manifestContent out)]
      match shlexSplit (cmd_concat final_file) with
      | none => (some out, tr1, true)
      | some cargs =>
        if env.concatRunFails then (some out, tr1 ++ [.ran cargs], true) else
        let tr2 := tr1 ++ [.ran cargs]
        if env.rmSplashFails then (some out, tr2, true) else
        let tr3 := tr2 ++ [.removed splash_file]
        if env.rmManifestFails then (some out, tr3, true) else
        let tr4 := tr3 ++ [.removed concat_list]
        if env.rmRawFails then (some out, tr4, true) else
        let tr5 := tr4 ++ [.removed out]
        let tr6 := tr5 ++
          (if env.finalExists then
            [.status ("Saved: " ++ final_file),
             .logev ("Success: Recording saved: " ++ final_file)]
          else
            [.status "Error: file not saved",
             .logev "Failed: final video not created"])
        (some final_file, tr6, false)

/-- `stop_recording` (source lines 193-261).  Immediate return when
`self.proc is None`; otherwise the try block (graceful stop, reap,
postprocessing), the `except` clause (log of the failure), and the
`finally` clause that always clears `self.proc` and `self.paused`. -/
def stop_recording (env : StopEnv) (s : GuiState) : GuiState × List Event :=
  match s.proc with
  | none => (s, [])
  | some _ =>
    let g := gracefulStep env
    if g.2 then
      ({ s with proc := none, paused := false },
        .status "Stopping..." :: g.1 ++ [.logev "Failed during stop"])
    else
      let p := postStep env s
      ({ s with proc := none, paused := false, output_file := p.1 },
        .status "Stopping..." :: g.1 ++ waitStep env ++ p.2.1 ++
          (if p.2.2 then [.logev "Failed during stop"] else []))

/-- Outcome of the one fallible call of `toggle_pause`
(`send_signal(SIGSTOP)` or `send_signal(SIGCONT)`). -/
structure ToggleEnv where
  sigFails : Bool
  deriving DecidableEq, Repr

/-- `toggle_pause` (source lines 169-191).  Immediate return when
`self.proc is None`; otherwise suspend (`SIGSTOP`) when not paused, or
resume (`SIGCONT`) when paused; on a raise the state is unchanged and an
error is shown and logged. -/
def toggle_pause (env : ToggleEnv) (s : GuiState) : GuiState × List Event :=
  match s.proc with
  | none => (s, [])
  | some _ =>
    if s.paused = false then
      if env.sigFails then
        (s, [.err "Pause Error", .logev "Failed to pause recording"])
      else
        ({ s with paused := true },
          [.sentSig "SIGSTOP", .status "Paused", .logev "Recording paused"])
    else
      if env.sigFails then
        (s, [.err "Resume Error", .logev "Failed to resume recording"])
      else
        ({ s with paused := false },
          [.sentSig "SIGCONT", .status recordingMsg, .logev "Recording resumed"])

/-- Outcomes of the external calls made by `start_recording`: the title
dialog result (`""` models both an empty entry and a cancelled dialog,
which are equally falsy), the timestamp, `is_wayland()`, `which(...)` for
the two tools, `DISPLAY`, and whether `os.makedirs` or `subprocess.Popen`
raise.  `pid` is the handle of the spawned child. -/
structure StartEnv where
  titleInput : String
  ts : String
  wayland : Bool
  hasWfRecorder : Bool
  hasFfmpeg : Bool
  display : Option String
  makedirsFails : Bool
  popenFails : Bool
  pid : Nat
  deriving DecidableEq, Repr

/-- The spawn step of `start_recording` (source lines 143-167): status
update, `shlex.split(cmd)` (whose `ValueError` is caught by the same
`try`), and `Popen`; on a raise `self.proc` is reset to `None` and the
failure is shown and logged. -/
def spawnStep (env : StartEnv) (s : GuiState) (tr : List Event) (cmd : String)
    (out : String) : GuiState × List Event :=
  match shlexSplit cmd with
  | none =>
    ({ s with proc := none },
      tr ++ [.status recordingMsg, .err "Error starting recorder",
             .logev "Failed to start recording"])
  | some args =>
    if env.popenFails then
      ({ s with proc := none },
        tr ++ [.status recordingMsg, .err "Error starting recorder",
               .logev "Failed to start recording"])
    else
      ({ s with proc := some env.pid, paused := false },
        tr ++ [.status recordingMsg, .spawned args,
               .logev ("Started recording: " ++ out)])

/-- `start_recording` (source lines 108-167).  Rejected with a warning
when `self.proc is not None`; `self.title_text` is assigned the dialog
result before the emptiness check; `self.output_file` is assigned the
new timestamped path before the backend-tool checks; a missing tool
aborts after that assignment.  A raising `os.makedirs` (outside any
`try`) propagates, leaving the fields as they were at that point. -/
def start_recording (env : StartEnv) (s : GuiState) : GuiState × List Event :=
  match s.proc with
  | some _ => (s, [.warn "Already running"])
  | none =>
    let s := { s with title_text := env.titleInput }
    if env.titleInput = "" then (s, [.err "Missing"])
    else
      let filename := "recording_" ++ env.ts ++ ".mp4"
      let out_dir := pyStrip s.output_dir
      let fps := pyStrip s.fps
      let size_str := pyStrip s.size_str
      if env.makedirsFails then (s, []) else
      let tr : List Event := [.makedirs out_dir]
      let out := pyJoin out_dir filename
      let s := { s with output_file := some out }
      if env.wayland then
        if env.hasWfRecorder = false then
          (s, tr ++ [.err "wf-recorder not found",
                     .logev "Failed: wf-recorder not found"])
        else
          spawnStep env s tr (build_cmd_wayland out fps size_str) out
      else
        if env.hasFfmpeg = false then
          (s, tr ++ [.err "FFmpeg not found", .logev "Failed: FFmpeg not found"])
        else
          spawnStep env s tr
            (build_cmd_x11 out fps size_str (env.display.getD ":0.0")) out

/-! ## Trace predicates and concrete sample data -/

/-- Is this event a reap, i.e. a returned `wait` collecting the child
exit status? -/
def Event.isReap : Event → Bool
  | .waited _ => true
  | _ => false

/-- Is this event a postprocessing subprocess invocation
(`subprocess.run`)? -/
def Event.isRun : Event → Bool
  | .ran _ => true
  | _ => false

/-- Scanning the trace from the start: a reap is reached before any
postprocessing subprocess run (vacuously true when no run occurs). -/
def reapBeforeRuns : List Event → Bool
  | [] => true
  | e :: tr => if e.isReap then true else if e.isRun then false else reapBeforeRuns tr

/-- A concat manifest for a list of input files, one `file <path>` line
each, in order (the shape the spec describes). -/
def mkManifest (files : List String) : String :=
  String.join (files.map (fun f => "file " ++ sq ++ f ++ sq ++ "\n"))

/-- A concrete running session used by witnesses and counterexamples. -/
def sampleState : GuiState :=
  ⟨some 7, some "/v/rec.mp4", "T", false, "/v", "30", "640x480"⟩

/-- A concrete all-successful stop environment (Wayland branch). -/
def stopOkEnv : StopEnv :=
  ⟨true, true, false, false, false, false, false, false, false, false, true⟩

/-- The stop environment in which the concat `subprocess.run` raises. -/
def stopConcatFailEnv : StopEnv :=
  ⟨true, true, false, false, false, false, true, false, false, false, true⟩

/-- A character that the tokenizer treats as an ordinary word character
outside quotes: not whitespace, not a quote, not an escape. -/
def PlainChar (c : Char) : Prop :=
  isWs c = false ∧ c ≠ sqC ∧ c ≠ dqC ∧ c ≠ bsC

instance : DecidablePred PlainChar := fun c => by
  unfold PlainChar
  infer_instance

/-- A character that is literal inside double quotes: not a double quote
and not a backslash. -/
def DqOkChar (c : Char) : Prop := c ≠ dqC ∧ c ≠ bsC

instance : DecidablePred DqOkChar := fun c => by
  unfold DqOkChar
  infer_instance

/-- A concrete idle state whose `output_file` still holds the path of an
earlier session. -/
def idleState : GuiState :=
  ⟨none, some "/old/recording_a.mp4", "t", false, "/v", "30", "640x480"⟩

/-- A concrete start environment on Wayland with `wf-recorder` missing. -/
def startNoToolEnv : StartEnv :=
  ⟨"T", "2024-01-02_03-04-05", true, false, true, none, false, false, 9⟩

/-! ## Helper lemmas -/

theorem mkManifest_pair (a b : String) :
    mkManifest [a, b] =
      ("file " ++ sq ++ a ++ sq ++ "\n") ++ ("file " ++ sq ++ b ++ sq ++ "\n") := by
  apply String.ext
  simp [mkManifest, String.join, String.data_append]

theorem isPrefixOf_self (l : List Char) : l.isPrefixOf l = true := by
  induction l with
  | nil => rfl
  | cons c t ih => simp [List.isPrefixOf, ih]

theorem replaceLoop_nil (pat rep : List Char) (n : Nat) :
    replaceLoop pat rep n [] = [] := by
  cases n <;> rfl

/-- When `pat` occurs in `stem ++ pat` only as the final suffix,
replacement rewrites exactly that suffix. -/
theorem replaceLoop_unique_suffix (pat rep : List Char) (hp : pat ≠ []) :
    ∀ (stem : List Char) (n : Nat), (stem ++ pat).length ≤ n →
      (∀ i, i < stem.length → pat.isPrefixOf ((stem ++ pat).drop i) = false) →
      replaceLoop pat rep n (stem ++ pat) = stem ++ rep := by
  intro stem
  induction stem with
  | nil =>
    intro n hn _
    cases pat with
    | nil => exact absurd rfl hp
    | cons c pt =>
      cases n with
      | zero => simp at hn
      | succ n =>
        simp only [List.nil_append]
        rw [replaceLoop, if_pos (isPrefixOf_self _)]
        simp [List.drop_length, replaceLoop_nil]
  | cons c stem ih =>
    intro n hn hocc
    cases n with
    | zero => simp at hn
    | succ n =>
      have h0 : pat.isPrefixOf (c :: (stem ++ pat)) = false := by
        have := hocc 0 (by simp)
        simpa using this
      simp only [List.cons_append]
      rw [replaceLoop, if_neg (by simp [h0])]
      congr 1
      refine ih n (by simp at hn ⊢; omega) ?_
      intro i hi
      have := hocc (i + 1) (by simp; omega)
      simpa using this

/-- `pyReplace out ".mp4" "_final.mp4"` inserts the suffix before the
extension when `.mp4` occurs only at the end of `out`. -/
theorem pyReplace_final_suffix (out : String) (stem : List Char)
    (h : out.data = stem ++ (".mp4").data)
    (hocc : ∀ i, i < stem.length →
      (".mp4").data.isPrefixOf ((stem ++ (".mp4").data).drop i) = false) :
    pyReplace out ".mp4" "_final.mp4" = ⟨stem ++ ("_final.mp4").data⟩ := by
  unfold pyReplace
  rw [h]
  exact congrArg String.mk
    (replaceLoop_unique_suffix _ _ (by decide) stem _ (Nat.le_refl _) hocc)

/-! ### Tokenizer walk lemmas -/

theorem sq_data : sq.data = [sqC] := rfl

theorem dq_data : dq.data = [dqC] := rfl

theorem runSeg_append (st : SplitState) (a b : List Char) :
    runSeg st (a ++ b) = runSeg (runSeg st a) b :=
  List.foldl_append _ _ _ _

theorem shlexStep_shift (ts : List (List Char)) (st : SplitState) (c : Char) :
    shlexStep ⟨st.mode, st.acc, st.hasTok, ts ++ st.toks⟩ c =
      ⟨(shlexStep st c).mode, (shlexStep st c).acc, (shlexStep st c).hasTok,
        ts ++ (shlexStep st c).toks⟩ := by
  rcases st with ⟨m, a, h, t⟩
  cases m <;> simp only [shlexStep] <;> split_ifs <;> simp

theorem runSeg_shift (ts : List (List Char)) (st : SplitState)
    (l : List Char) :
    runSeg ⟨st.mode, st.acc, st.hasTok, ts ++ st.toks⟩ l =
      ⟨(runSeg st l).mode, (runSeg st l).acc, (runSeg st l).hasTok,
        ts ++ (runSeg st l).toks⟩ := by
  induction l generalizing st with
  | nil => rfl
  | cons c l ih =>
    show runSeg (shlexStep _ c) l = _
    rw [shlexStep_shift]
    exact ih (shlexStep st c)

/-- Restart the tokenizer fresh after a flush, carrying the tokens. -/
theorem runSeg_fresh (ts : List (List Char)) (l : List Char) :
    runSeg ⟨.normal, [], false, ts⟩ l =
      ⟨(runSeg initSplit l).mode, (runSeg initSplit l).acc,
        (runSeg initSplit l).hasTok, ts ++ (runSeg initSplit l).toks⟩ := by
  have := runSeg_shift ts initSplit l
  simpa [initSplit] using this

/-- Word characters accumulate literally in normal mode. -/
theorem runSeg_plain (l : List Char) (h : ∀ c ∈ l, PlainChar c)
    (a : List Char) (ht : Bool) (ts : List (List Char)) :
    runSeg ⟨.normal, a, ht, ts⟩ l = ⟨.normal, a ++ l, ht || !l.isEmpty, ts⟩ := by
  induction l generalizing a ht with
  | nil => simp [runSeg]
  | cons c l ih =>
    obtain ⟨hw, hs, hd, hb⟩ := h c (by simp)
    show runSeg (shlexStep _ c) l = _
    rw [show shlexStep ⟨.normal, a, ht, ts⟩ c = ⟨.normal, a ++ [c], true, ts⟩ by
      simp [shlexStep, hw, hs, hd, hb]]
    rw [ih (fun x hx => h x (by simp [hx]))]
    simp

/-- Characters inside double quotes accumulate literally. -/
theorem runSeg_dqPlain (l : List Char) (h : ∀ c ∈ l, DqOkChar c)
    (a : List Char) (ht : Bool) (ts : List (List Char)) :
    runSeg ⟨.double, a, ht, ts⟩ l = ⟨.double, a ++ l, ht, ts⟩ := by
  induction l generalizing a with
  | nil => simp [runSeg]
  | cons c l ih =>
    obtain ⟨hd, hb⟩ := h c (by simp)
    show runSeg (shlexStep _ c) l = _
    rw [show shlexStep ⟨.double, a, ht, ts⟩ c = ⟨.double, a ++ [c], ht, ts⟩ by
      simp [shlexStep, hd, hb]]
    rw [ih (fun x hx => h x (by simp [hx]))]
    simp

/-- A whitespace character flushes the token in progress. -/
theorem shlexStep_flush (c : Char) (hc : isWs c = true) (a : List Char)
    (ts : List (List Char)) :
    shlexStep ⟨.normal, a, true, ts⟩ c = ⟨.normal, [], false, ts ++ [a]⟩ := by
  simp [shlexStep, hc]

/-- An opening double quote in normal mode. -/
theorem shlexStep_openDq (a : List Char) (ht : Bool) (ts : List (List Char)) :
    shlexStep ⟨.normal, a, ht, ts⟩ dqC = ⟨.double, a, true, ts⟩ := by
  have h1 : isWs dqC = false := by decide
  have h2 : ¬(dqC = sqC) := by decide
  simp [shlexStep, h1, h2]

/-- A closing double quote. -/
theorem shlexStep_closeDq (a : List Char) (ht : Bool) (ts : List (List Char)) :
    shlexStep ⟨.double, a, ht, ts⟩ dqC = ⟨.normal, a, ht, ts⟩ := by
  simp [shlexStep]

theorem mk_data (s : String) : String.mk s.data = s := rfl

theorem mk_append (a b : List Char) :
    String.mk (a ++ b) = String.mk a ++ String.mk b := rfl

theorem mk_sqC : String.mk [sqC] = sq := rfl

theorem runStr_append (st : SplitState) (a b : String) :
    runStr st (a ++ b) = runStr (runStr st a) b := by
  unfold runStr
  rw [String.data_append, runSeg_append]

theorem runStr_plain_tr (s : String) (h : ∀ c ∈ s.data, PlainChar c)
    (a : List Char) (ts : List (List Char)) :
    runStr ⟨.normal, a, true, ts⟩ s = ⟨.normal, a ++ s.data, true, ts⟩ := by
  unfold runStr
  rw [runSeg_plain s.data h]
  simp

theorem runStr_dqPlain (s : String) (h : ∀ c ∈ s.data, DqOkChar c)
    (a : List Char) (ht : Bool) (ts : List (List Char)) :
    runStr ⟨.double, a, ht, ts⟩ s = ⟨.double, a ++ s.data, ht, ts⟩ :=
  runSeg_dqPlain s.data h a ht ts

theorem runStr_openDq (a : List Char) (ht : Bool) (ts : List (List Char)) :
    runStr ⟨.normal, a, ht, ts⟩ dq = ⟨.double, a, true, ts⟩ :=
  shlexStep_openDq a ht ts

theorem runStr_closeDq (a : List Char) (ht : Bool) (ts : List (List Char)) :
    runStr ⟨.double, a, ht, ts⟩ dq = ⟨.normal, a, ht, ts⟩ :=
  shlexStep_closeDq a ht ts

theorem runStr_sqInDq (a : List Char) (ht : Bool) (ts : List (List Char)) :
    runStr ⟨.double, a, ht, ts⟩ sq = ⟨.double, a ++ [sqC], ht, ts⟩ :=
  runSeg_dqPlain [sqC] (by decide) a ht ts

theorem runStr_flushSpace (a : List Char) (ts : List (List Char)) :
    runStr ⟨.normal, a, true, ts⟩ " " = ⟨.normal, [], false, ts ++ [a]⟩ :=
  shlexStep_flush ' ' (by decide) a ts

theorem runStr_plain_start (s : String) (h : ∀ c ∈ s.data, PlainChar c)
    (hne : s.data ≠ []) (ts : List (List Char)) :
    runStr ⟨.normal, [], false, ts⟩ s = ⟨.normal, s.data, true, ts⟩ := by
  have hbe : s.data.isEmpty = false := by
    cases h2 : s.data
    · exact absurd h2 hne
    · rfl
  unfold runStr
  rw [runSeg_plain s.data h]
  simp [hbe]

/-- Restart after a flush on a concrete segment whose fresh run has been
evaluated. -/
theorem runStr_fresh_eval {m : SMode} {a : List Char} {h : Bool}
    {t : List (List Char)} (s : String)
    (he : runStr initSplit s = ⟨m, a, h, t⟩) (ts : List (List Char)) :
    runStr ⟨.normal, [], false, ts⟩ s = ⟨m, a, h, ts ++ t⟩ := by
  have := runSeg_fresh ts s.data
  unfold runStr at he ⊢
  rw [this, he]

/-- Whichever way the postprocessing block ends, the `output_file` field
stays non-null once it was non-null. -/
theorem postStep_fst_ne_none (env : StopEnv) (s : GuiState) (out : String)
    (ho : s.output_file = some out) : (postStep env s).1 ≠ none := by
  unfold postStep
  rw [ho]
  dsimp only
  rcases h1 : shlexSplit (cmd_splash s.size_str s.title_text) with _ | sargs <;>
    simp only [h1]
  · simp
  · split_ifs <;>
      rcases h2 : shlexSplit (cmd_concat (pyReplace out ".mp4" "_final.mp4")) with
        _ | cargs <;>
      simp [h2]

set_option maxRecDepth 8000 in
/-- Full tokenization of the X11 capture command for well-behaved
parameter strings. -/
theorem x11_split (out fps size display audio webcam : String)
    (hout : ∀ c ∈ out.data, DqOkChar c)
    (hfps : ∀ c ∈ fps.data, PlainChar c) (hfne : fps.data ≠ [])
    (hsize : ∀ c ∈ size.data, PlainChar c) (hsne : size.data ≠ [])
    (hdisp : ∀ c ∈ display.data, PlainChar c) (hdne : display.data ≠ [])
    (haud : ∀ c ∈ audio.data, PlainChar c) (hane : audio.data ≠ [])
    (hweb : ∀ c ∈ webcam.data, PlainChar c) (hwne : webcam.data ≠ []) :
    shlexSplit (build_cmd_x11 out fps size display audio webcam) =
      some ["ffmpeg", "-y", "-video_size", size, "-framerate", fps,
            "-f", "x11grab", "-i", display,
            "-f", "v4l2", "-video_size", "300x300", "-i", webcam,
            "-f", "pulse", "-thread_queue_size", "512", "-ac", "2", "-i", audio,
            "-filter_complex", "[0:v][1:v] overlay=(main_w-overlay_w-20):20[v]",
            "-map", "[v]", "-map", "2:a",
            "-c:v", "libx264", "-preset", "veryfast", "-pix_fmt", "yuv420p",
            "-crf", "23", "-c:a", "aac", "-b:a", "160k", out] := by
  unfold shlexSplit build_cmd_x11
  rw [show toString webcam_w = "300" from by decide,
      show toString webcam_h = "300" from by decide,
      show (" -framerate " : String) = " " ++ "-framerate " from rfl,
      show (" -f x11grab -i " : String) = " " ++ "-f x11grab -i " from rfl,
      show (" -i " : String) = " " ++ "-i " from rfl,
      show (" -map 2:a " : String) = " " ++ "-map 2:a " from rfl]
  simp only [x_pos, y_pos, runStr_append]
  rw [show runStr initSplit "ffmpeg -y " =
        ⟨.normal, [], false, [("ffmpeg").data, ("-y").data]⟩ from by decide,
      runStr_fresh_eval "-video_size "
        (show runStr initSplit "-video_size " =
          ⟨.normal, [], false, [("-video_size").data]⟩ from by decide),
      runStr_plain_start size hsize hsne,
      runStr_flushSpace,
      runStr_fresh_eval "-framerate "
        (show runStr initSplit "-framerate " =
          ⟨.normal, [], false, [("-framerate").data]⟩ from by decide),
      runStr_plain_start fps hfps hfne,
      runStr_flushSpace,
      runStr_fresh_eval "-f x11grab -i "
        (show runStr initSplit "-f x11grab -i " =
          ⟨.normal, [], false, [("-f").data, ("x11grab").data, ("-i").data]⟩
          from by decide),
      runStr_plain_start display hdisp hdne,
      runStr_flushSpace,
      runStr_fresh_eval "-f v4l2 -video_size "
        (show runStr initSplit "-f v4l2 -video_size " =
          ⟨.normal, [], false, [("-f").data, ("v4l2").data, ("-video_size").data]⟩
          from by decide),
      runStr_plain_start "300" (by decide) (by decide),
      runStr_plain_tr "x" (by decide),
      runStr_plain_tr "300" (by decide),
      runStr_flushSpace,
      runStr_fresh_eval "-i "
        (show runStr initSplit "-i " =
          ⟨.normal, [], false, [("-i").data]⟩ from by decide),
      runStr_plain_start webcam hweb hwne,
      runStr_flushSpace,
      runStr_fresh_eval "-f pulse -thread_queue_size 512 -ac 2 -i "
        (show runStr initSplit "-f pulse -thread_queue_size 512 -ac 2 -i " =
          ⟨.normal, [], false, [("-f").data, ("pulse").data,
            ("-thread_queue_size").data, ("512").data, ("-ac").data,
            ("2").data, ("-i").data]⟩ from by decide),
      runStr_plain_start audio haud hane,
      runStr_flushSpace,
      runStr_fresh_eval "-filter_complex "
        (show runStr initSplit "-filter_complex " =
          ⟨.normal, [], false, [("-filter_complex").data]⟩ from by decide),
      runStr_openDq,
      runStr_dqPlain "[0:v][1:v] overlay=" (by decide),
      runStr_dqPlain "(main_w-overlay_w-20)" (by decide),
      runStr_dqPlain ":" (by decide),
      runStr_dqPlain "20" (by decide),
      runStr_dqPlain "[v]" (by decide),
      runStr_closeDq,
      runStr_flushSpace,
      runStr_fresh_eval "-map "
        (show runStr initSplit "-map " =
          ⟨.normal, [], false, [("-map").data]⟩ from by decide),
      runStr_openDq,
      runStr_dqPlain "[v]" (by decide),
      runStr_closeDq,
      runStr_flushSpace,
      runStr_fresh_eval "-map 2:a "
        (show runStr initSplit "-map 2:a " =
          ⟨.normal, [], false, [("-map").data, ("2:a").data]⟩ from by decide),
      runStr_fresh_eval "-c:v libx264 -preset veryfast -pix_fmt yuv420p -crf 23 "
        (show runStr initSplit
            "-c:v libx264 -preset veryfast -pix_fmt yuv420p -crf 23 " =
          ⟨.normal, [], false, [("-c:v").data, ("libx264").data,
            ("-preset").data, ("veryfast").data, ("-pix_fmt").data,
            ("yuv420p").data, ("-crf").data, ("23").data]⟩ from by decide),
      runStr_fresh_eval "-c:a aac -b:a 160k "
        (show runStr initSplit "-c:a aac -b:a 160k " =
          ⟨.normal, [], false, [("-c:a").data, ("aac").data, ("-b:a").data,
            ("160k").data]⟩ from by decide),
      runStr_openDq,
      runStr_dqPlain out hout,
      runStr_closeDq]
  simp [finalizeSplit, mk_append, mk_data, mk_sqC]

set_option maxRecDepth 8000 in
/-- Full tokenization of the Wayland capture command for well-behaved
parameter strings (the frame size does not occur in it). -/
theorem wayland_split (out fps audio : String) (size : String)
    (hout : ∀ c ∈ out.data, DqOkChar c)
    (hfps : ∀ c ∈ fps.data, PlainChar c) (hfne : fps.data ≠ [])
    (haud : ∀ c ∈ audio.data, PlainChar c) :
    shlexSplit (build_cmd_wayland out fps size audio) =
      some ["wf-recorder", "-f", out, "--audio=" ++ audio,
            "--framerate", fps, "--pixel-format", "yuv420p"] := by
  unfold shlexSplit build_cmd_wayland
  rw [show (" --framerate " : String) = " " ++ "--framerate " from rfl,
      show (" --pixel-format yuv420p" : String) =
        " " ++ "--pixel-format yuv420p" from rfl]
  simp only [runStr_append]
  rw [show runStr initSplit "wf-recorder -f " =
        ⟨.normal, [], false, [("wf-recorder").data, ("-f").data]⟩
        from by decide,
      runStr_openDq,
      runStr_dqPlain out hout,
      runStr_closeDq,
      runStr_flushSpace,
      runStr_plain_start "--audio=" (by decide) (by decide),
      runStr_plain_tr audio haud,
      runStr_flushSpace,
      runStr_fresh_eval "--framerate "
        (show runStr initSplit "--framerate " =
          ⟨.normal, [], false, [("--framerate").data]⟩ from by decide),
      runStr_plain_start fps hfps hfne,
      runStr_flushSpace,
      runStr_fresh_eval "--pixel-format yuv420p"
        (show runStr initSplit "--pixel-format yuv420p" =
          ⟨.normal, ("yuv420p").data, true, [("--pixel-format").data]⟩
          from by decide)]
  simp [finalizeSplit, mk_append, mk_data, mk_sqC]
  all_goals (apply String.ext; simp [String.data_append, sq_data])

/-! ## Claim theorems -/

/-- C1: for every call to `stop()` made while a child process handle
exists, when `stop()` returns the child handle is cleared (`proc` is
`None`) and the pause flag is cleared (`paused` is `False`), for every
outcome of the graceful stop, the reap, the splash step, the concat step
and the cleanup (the `finally` clause always runs). -/
theorem C1_stop_clears_handle_and_pause (env : StopEnv) (s : GuiState) (p : Nat)
    (h : s.proc = some p) :
    (stop_recording env s).1.proc = none ∧ (stop_recording env s).1.paused = false := by
  simp only [stop_recording, h]
  split <;> simp

/-- Witness for C1 at a concrete state and environment. -/
theorem C1_witness :
    (stop_recording ⟨true, true, false, false, true, true, false, false, false, false, false⟩
      ⟨some 7, some "/v/rec.mp4", "T", true, "/v", "30", "640x480"⟩).1.proc = none ∧
    (stop_recording ⟨true, true, false, false, true, true, false, false, false, false, false⟩
      ⟨some 7, some "/v/rec.mp4", "T", true, "/v", "30", "640x480"⟩).1.paused = false :=
  C1_stop_clears_handle_and_pause _ _ 7 rfl

/-- C2: in every execution of `stop()` with a live child, the child exit
status is collected before any postprocessing subprocess runs; and
whenever the graceful-termination request was sent (the `q` write or the
`SIGINT`), the controller either reaps within the 20-second bounded wait,
or — when the bounded wait times out — forcibly kills the child and then
waits on it unconditionally. -/
theorem C2_bounded_wait_and_reap_before_postprocessing (env : StopEnv)
    (s : GuiState) (p : Nat) (h : s.proc = some p) :
    reapBeforeRuns (stop_recording env s).2 = true ∧
    ((Event.stdinWrote "q\n" ∈ (stop_recording env s).2 ∨
      Event.sentSig "SIGINT" ∈ (stop_recording env s).2) →
      (env.waitTimesOut = true →
        Event.killed ∈ (stop_recording env s).2 ∧
        Event.waited none ∈ (stop_recording env s).2) ∧
      (env.waitTimesOut = false →
        Event.waited (some 20) ∈ (stop_recording env s).2)) := by
  obtain ⟨wl, so, swf, sif, wto, sf, cf, r1, r2, r3, fe⟩ := env
  cases wl <;> cases so <;> cases swf <;> cases sif <;> cases wto <;>
    simp [stop_recording, gracefulStep, waitStep, h, reapBeforeRuns,
      Event.isReap, Event.isRun]

/-- Witness for C2 at a concrete state and environment (timeout branch). -/
theorem C2_witness :
    reapBeforeRuns (stop_recording
      ⟨true, true, false, false, true, false, false, false, false, false, true⟩
      ⟨some 7, some "/v/rec.mp4", "T", false, "/v", "30", "640x480"⟩).2 = true ∧
    ((Event.stdinWrote "q\n" ∈ (stop_recording
        ⟨true, true, false, false, true, false, false, false, false, false, true⟩
        ⟨some 7, some "/v/rec.mp4", "T", false, "/v", "30", "640x480"⟩).2 ∨
      Event.sentSig "SIGINT" ∈ (stop_recording
        ⟨true, true, false, false, true, false, false, false, false, false, true⟩
        ⟨some 7, some "/v/rec.mp4", "T", false, "/v", "30", "640x480"⟩).2) →
      ((true : Bool) = true →
        Event.killed ∈ (stop_recording
          ⟨true, true, false, false, true, false, false, false, false, false, true⟩
          ⟨some 7, some "/v/rec.mp4", "T", false, "/v", "30", "640x480"⟩).2 ∧
        Event.waited none ∈ (stop_recording
          ⟨true, true, false, false, true, false, false, false, false, false, true⟩
          ⟨some 7, some "/v/rec.mp4", "T", false, "/v", "30", "640x480"⟩).2) ∧
      ((true : Bool) = false →
        Event.waited (some 20) ∈ (stop_recording
          ⟨true, true, false, false, true, false, false, false, false, false, true⟩
          ⟨some 7, some "/v/rec.mp4", "T", false, "/v", "30", "640x480"⟩).2)) :=
  C2_bounded_wait_and_reap_before_postprocessing _ _ 7 rfl

set_option maxRecDepth 8000 in
/-- C3 counterexample: the title is interpolated into the splash command
with no escaping, and both failure modes the claim forbids occur.  With
an odd number of double quotes in the title (`a"b`), `shlex.split`
raises `ValueError` — command construction breaks.  With balanced double
quotes — the claim's own example `O'Brien: "Demo"` — tokenization
succeeds but the double-quote characters are stripped from every
produced argument, so the visible title text does not round-trip. -/
theorem C3_counterexample :
    (dqC ∈ ("a" ++ dq ++ "b").data ∧
      shlexSplit (cmd_splash "640x480" ("a" ++ dq ++ "b")) = none) ∧
    (dqC ∈ ("O" ++ sq ++ "Brien: " ++ dq ++ "Demo" ++ dq).data ∧
      shlexSplit (cmd_splash "640x480"
          ("O" ++ sq ++ "Brien: " ++ dq ++ "Demo" ++ dq)) =
        some ["ffmpeg", "-y", "-f", "lavfi", "-i",
              "color=c=black:s=640x480:d=5",
              "-f", "lavfi", "-i", "anullsrc=r=44100:cl=stereo", "-vf",
              "drawtext=text=" ++ sq ++ "O" ++ sq ++ "Brien: Demo" ++ sq ++
                ":fontcolor=white:fontsize=48:x=(w-text_w)/2:y=(h-text_h)/2",
              "-c:v", "libx264", "-c:a", "aac", "-shortest", "splash.mp4"] ∧
      ∀ a ∈ ["ffmpeg", "-y", "-f", "lavfi", "-i",
              "color=c=black:s=640x480:d=5",
              "-f", "lavfi", "-i", "anullsrc=r=44100:cl=stereo", "-vf",
              "drawtext=text=" ++ sq ++ "O" ++ sq ++ "Brien: Demo" ++ sq ++
                ":fontcolor=white:fontsize=48:x=(w-text_w)/2:y=(h-text_h)/2",
              "-c:v", "libx264", "-c:a", "aac", "-shortest", "splash.mp4"],
        dqC ∉ a.data) := by
  decide

set_option maxRecDepth 8000 in
/-- C3 (amended): no escaping or substitution is performed.  For titles
containing no double quote and no backslash (and a well-behaved size
string), `shlex.split` succeeds and embeds the title text verbatim,
wrapped in single quotes, inside the `drawtext` filter argument; a
single quote or colon in the title is passed through unescaped into the
filter text.  Titles containing double quotes do not round-trip: an odd
number of double quotes makes `shlex.split` raise `ValueError`, and
balanced double quotes are silently stripped during tokenization (both
shown by the counterexample). -/
theorem C3_amended_splash_tokenization (size title : String)
    (hsize : ∀ c ∈ size.data, PlainChar c)
    (htitle : ∀ c ∈ title.data, DqOkChar c) :
    shlexSplit (cmd_splash size title) =
      some ["ffmpeg", "-y", "-f", "lavfi", "-i",
            "color=c=black:s=" ++ size ++ ":d=5",
            "-f", "lavfi", "-i", "anullsrc=r=44100:cl=stereo", "-vf",
            "drawtext=text=" ++ sq ++ title ++ sq ++
              ":fontcolor=white:fontsize=48:x=(w-text_w)/2:y=(h-text_h)/2",
            "-c:v", "libx264", "-c:a", "aac", "-shortest", splash_file] := by
  unfold shlexSplit cmd_splash
  rw [show (":d=5 " : String) = ":d=5" ++ " " from rfl]
  simp only [splash_file, runStr_append]
  rw [show runStr initSplit "ffmpeg -y -f lavfi -i color=c=black:s=" =
        ⟨.normal, ("color=c=black:s=").data, true,
          [("ffmpeg").data, ("-y").data, ("-f").data, ("lavfi").data,
           ("-i").data]⟩ from by decide,
      runStr_plain_tr size hsize,
      runStr_plain_tr ":d=5" (by decide),
      runStr_flushSpace,
      runStr_fresh_eval "-f lavfi -i anullsrc=r=44100:cl=stereo "
        (show runStr initSplit "-f lavfi -i anullsrc=r=44100:cl=stereo " =
          ⟨.normal, [], false, [("-f").data, ("lavfi").data, ("-i").data,
            ("anullsrc=r=44100:cl=stereo").data]⟩ from by decide),
      runStr_fresh_eval "-vf "
        (show runStr initSplit "-vf " =
          ⟨.normal, [], false, [("-vf").data]⟩ from by decide),
      runStr_openDq,
      runStr_dqPlain "drawtext=text=" (by decide),
      runStr_sqInDq,
      runStr_dqPlain title htitle,
      runStr_sqInDq,
      runStr_dqPlain ":fontcolor=white:fontsize=48:x=(w-text_w)/2:y=(h-text_h)/2"
        (by decide),
      runStr_closeDq,
      runStr_flushSpace,
      runStr_fresh_eval "-c:v libx264 -c:a aac -shortest "
        (show runStr initSplit "-c:v libx264 -c:a aac -shortest " =
          ⟨.normal, [], false, [("-c:v").data, ("libx264").data, ("-c:a").data,
            ("aac").data, ("-shortest").data]⟩ from by decide),
      runStr_openDq,
      runStr_dqPlain "splash.mp4" (by decide),
      runStr_closeDq]
  simp [finalizeSplit, mk_append, mk_data, mk_sqC]
  constructor <;> (apply String.ext; simp [String.data_append, sq_data])

/-- Witness for the amended C3 at a concrete size and title. -/
theorem C3_witness :
    shlexSplit (cmd_splash "640x480" "My Title") =
      some ["ffmpeg", "-y", "-f", "lavfi", "-i",
            "color=c=black:s=" ++ "640x480" ++ ":d=5",
            "-f", "lavfi", "-i", "anullsrc=r=44100:cl=stereo", "-vf",
            "drawtext=text=" ++ sq ++ "My Title" ++ sq ++
              ":fontcolor=white:fontsize=48:x=(w-text_w)/2:y=(h-text_h)/2",
            "-c:v", "libx264", "-c:a", "aac", "-shortest", splash_file] :=
  C3_amended_splash_tokenization "640x480" "My Title" (by decide) (by decide)

set_option maxRecDepth 8000 in
/-- C4 counterexample: the Wayland capture command ignores its frame-size
parameter entirely (the source never interpolates `size_str`), so its
argument list does not contain the supplied frame-size token. -/
theorem C4_counterexample :
    shlexSplit (build_cmd_wayland "/tmp/o.mp4" "30" "1920x1080") =
      some ["wf-recorder", "-f", "/tmp/o.mp4", "--audio=default",
            "--framerate", "30", "--pixel-format", "yuv420p"] ∧
    ("1920x1080" : String) ∉
      ["wf-recorder", "-f", "/tmp/o.mp4", "--audio=default",
       "--framerate", "30", "--pixel-format", "yuv420p"] := by
  decide

/-- C4 (amended): for well-behaved parameter strings the X11 capture
command contains the supplied fps and frame-size tokens verbatim, and
the Wayland capture command contains the fps token verbatim but is
independent of the frame-size parameter, which it never uses. -/
theorem C4_amended_fps_size_tokens (out fps size display audio webcam : String)
    (hout : ∀ c ∈ out.data, DqOkChar c)
    (hfps : ∀ c ∈ fps.data, PlainChar c) (hfne : fps.data ≠ [])
    (hsize : ∀ c ∈ size.data, PlainChar c) (hsne : size.data ≠ [])
    (hdisp : ∀ c ∈ display.data, PlainChar c) (hdne : display.data ≠ [])
    (haud : ∀ c ∈ audio.data, PlainChar c) (hane : audio.data ≠ [])
    (hweb : ∀ c ∈ webcam.data, PlainChar c) (hwne : webcam.data ≠ []) :
    fps ∈ (shlexSplit (build_cmd_x11 out fps size display audio webcam)).getD [] ∧
    size ∈ (shlexSplit (build_cmd_x11 out fps size display audio webcam)).getD [] ∧
    fps ∈ (shlexSplit (build_cmd_wayland out fps size audio)).getD [] ∧
    (∀ size2 : String, build_cmd_wayland out fps size audio =
      build_cmd_wayland out fps size2 audio) := by
  rw [x11_split out fps size display audio webcam hout hfps hfne hsize hsne
        hdisp hdne haud hane hweb hwne,
      wayland_split out fps audio size hout hfps hfne haud]
  exact ⟨by simp, by simp, by simp, fun _ => rfl⟩

set_option maxRecDepth 8000 in
/-- Witness for the amended C4 at concrete parameters. -/
theorem C4_witness :
    ("30" : String) ∈ (shlexSplit (build_cmd_x11 "/tmp/o.mp4" "30" "1920x1080"
      ":0.0" "default" "/dev/video0")).getD [] ∧
    ("1920x1080" : String) ∈ (shlexSplit (build_cmd_x11 "/tmp/o.mp4" "30"
      "1920x1080" ":0.0" "default" "/dev/video0")).getD [] ∧
    ("30" : String) ∈ (shlexSplit (build_cmd_wayland "/tmp/o.mp4" "30"
      "1920x1080" "default")).getD [] ∧
    build_cmd_wayland "/tmp/o.mp4" "30" "1920x1080" "default" =
      build_cmd_wayland "/tmp/o.mp4" "30" "800x600" "default" := by
  have h := C4_amended_fps_size_tokens "/tmp/o.mp4" "30" "1920x1080" ":0.0"
    "default" "/dev/video0" (by decide) (by decide) (by decide) (by decide)
    (by decide) (by decide) (by decide) (by decide) (by decide) (by decide)
    (by decide)
  exact ⟨h.1, h.2.1, h.2.2.1, h.2.2.2 "800x600"⟩

set_option maxRecDepth 8000 in
/-- C5 counterexample: the final path is produced by Python
`str.replace(".mp4", "_final.mp4")`, which rewrites every occurrence.
For the raw path `/d.mp4/rec.mp4` (a directory name containing `.mp4`)
the successful postprocessing path of `stop()` reports
`/d_final.mp4/rec_final.mp4`, which is not the raw output path with a
`_final` suffix before the container extension (`/d.mp4/rec_final.mp4`). -/
theorem C5_counterexample :
    (stop_recording stopOkEnv
      ⟨some 7, some "/d.mp4/rec.mp4", "T", false, "/v", "30", "640x480"⟩).1.output_file =
        some "/d_final.mp4/rec_final.mp4" ∧
    ("/d_final.mp4/rec_final.mp4" : String) ≠ "/d.mp4/rec_final.mp4" ∧
    Event.removed "/d.mp4/rec.mp4" ∈ (stop_recording stopOkEnv
      ⟨some 7, some "/d.mp4/rec.mp4", "T", false, "/v", "30", "640x480"⟩).2 := by
  decide

/-- C5 (amended): on the successful postprocessing path of `stop()`, the
concat manifest lists exactly the splash clip first and the raw recording
second; after the concat step the splash clip, the manifest and the raw
recording are deleted and the reported output path becomes the raw path
with every occurrence of `.mp4` replaced by `_final.mp4` — which equals
the raw path with a `_final` suffix before the extension whenever `.mp4`
occurs only at the end of the raw path. -/
theorem C5_amended_success_postprocessing (env : StopEnv) (s : GuiState)
    (p : Nat) (out : String) (sargs cargs : List String)
    (h : s.proc = some p)
    (hg : (gracefulStep env).2 = false)
    (ho : s.output_file = some out)
    (hs : shlexSplit (cmd_splash s.size_str s.title_text) = some sargs)
    (hc : shlexSplit (cmd_concat (pyReplace out ".mp4" "_final.mp4")) = some cargs)
    (h1 : env.splashRunFails = false) (h2 : env.concatRunFails = false)
    (h3 : env.rmSplashFails = false) (h4 : env.rmManifestFails = false)
    (h5 : env.rmRawFails = false) :
    Event.wroteFile concat_list (mkManifest [splash_file, out]) ∈
      (stop_recording env s).2 ∧
    Event.removed splash_file ∈ (stop_recording env s).2 ∧
    Event.removed concat_list ∈ (stop_recording env s).2 ∧
    Event.removed out ∈ (stop_recording env s).2 ∧
    (stop_recording env s).1.output_file =
      some (pyReplace out ".mp4" "_final.mp4") ∧
    (∀ stem : List Char, out.data = stem ++ (".mp4").data →
      (∀ i, i < stem.length →
        (".mp4").data.isPrefixOf ((stem ++ (".mp4").data).drop i) = false) →
      pyReplace out ".mp4" "_final.mp4" = ⟨stem ++ ("_final.mp4").data⟩) := by
  have hman : manifestContent out = mkManifest [splash_file, out] :=
    (mkManifest_pair splash_file out).symm
  simp only [stop_recording, h, hg, Bool.false_eq_true, if_false, postStep, ho,
    hs, hc, h1, h2, h3, h4, h5, hman]
  refine ⟨by simp, by simp, by simp, by simp, by simp, ?_⟩
  intro stem hstem hocc
  exact pyReplace_final_suffix out stem hstem hocc

set_option maxRecDepth 8000 in
/-- Witness for the amended C5 at a concrete state and environment. -/
theorem C5_witness :
    Event.wroteFile concat_list (mkManifest [splash_file, "/v/rec.mp4"]) ∈
      (stop_recording stopOkEnv sampleState).2 ∧
    Event.removed splash_file ∈ (stop_recording stopOkEnv sampleState).2 ∧
    Event.removed concat_list ∈ (stop_recording stopOkEnv sampleState).2 ∧
    Event.removed "/v/rec.mp4" ∈ (stop_recording stopOkEnv sampleState).2 ∧
    (stop_recording stopOkEnv sampleState).1.output_file =
      some (pyReplace "/v/rec.mp4" ".mp4" "_final.mp4") ∧
    (∀ stem : List Char, ("/v/rec.mp4").data = stem ++ (".mp4").data →
      (∀ i, i < stem.length →
        (".mp4").data.isPrefixOf ((stem ++ (".mp4").data).drop i) = false) →
      pyReplace "/v/rec.mp4" ".mp4" "_final.mp4" = ⟨stem ++ ("_final.mp4").data⟩) :=
  C5_amended_success_postprocessing stopOkEnv sampleState 7 "/v/rec.mp4" _ _
    rfl rfl rfl rfl rfl rfl rfl rfl rfl rfl

set_option maxRecDepth 8000 in
/-- C6 counterexample: in an execution of `stop()` that reaches
postprocessing (the manifest is written, both subprocess steps start)
but whose concat step fails, neither the splash clip nor the manifest is
removed before `stop()` returns. -/
theorem C6_counterexample :
    Event.wroteFile concat_list (manifestContent "/v/rec.mp4") ∈
      (stop_recording stopConcatFailEnv sampleState).2 ∧
    Event.removed splash_file ∉ (stop_recording stopConcatFailEnv sampleState).2 ∧
    Event.removed concat_list ∉ (stop_recording stopConcatFailEnv sampleState).2 := by
  decide

/-- C6 (amended): the transient manifest and splash files are removed
before `stop()` returns on the success outcome of the postprocessing
sequence; on a failure outcome (for example a failing concat step, see
the counterexample) they are left behind. -/
theorem C6_amended_transients_removed_on_success (env : StopEnv) (s : GuiState)
    (p : Nat) (out : String) (sargs cargs : List String)
    (h : s.proc = some p)
    (hg : (gracefulStep env).2 = false)
    (ho : s.output_file = some out)
    (hs : shlexSplit (cmd_splash s.size_str s.title_text) = some sargs)
    (hc : shlexSplit (cmd_concat (pyReplace out ".mp4" "_final.mp4")) = some cargs)
    (h1 : env.splashRunFails = false) (h2 : env.concatRunFails = false)
    (h3 : env.rmSplashFails = false) (h4 : env.rmManifestFails = false)
    (h5 : env.rmRawFails = false) :
    Event.removed splash_file ∈ (stop_recording env s).2 ∧
    Event.removed concat_list ∈ (stop_recording env s).2 := by
  simp only [stop_recording, h, hg, Bool.false_eq_true, if_false, postStep, ho,
    hs, hc, h1, h2, h3, h4, h5]
  exact ⟨by simp, by simp⟩

set_option maxRecDepth 8000 in
/-- Witness for the amended C6 at a concrete state and environment
(X11 branch, graceful stop via the stdin `q`). -/
theorem C6_witness :
    Event.removed splash_file ∈ (stop_recording
      ⟨false, true, false, false, false, false, false, false, false, false, true⟩
      sampleState).2 ∧
    Event.removed concat_list ∈ (stop_recording
      ⟨false, true, false, false, false, false, false, false, false, false, true⟩
      sampleState).2 :=
  C6_amended_transients_removed_on_success _ sampleState 7 "/v/rec.mp4" _ _
    rfl rfl rfl rfl rfl rfl rfl rfl rfl rfl

/-- C7: a `start()` made while a session is already active (a child
handle exists) is rejected with a warning dialog and causes no state
change at all: the handler returns the state unchanged, and its only
effect is the warning. -/
theorem C7_start_rejected_while_active (env : StartEnv) (s : GuiState) (p : Nat)
    (h : s.proc = some p) :
    start_recording env s = (s, [.warn "Already running"]) := by
  simp only [start_recording, h]

/-- Witness for C7 at a concrete state and environment. -/
theorem C7_witness :
    start_recording ⟨"T", "2024-01-02_03-04-05", true, true, true, none, false, false, 9⟩
      ⟨some 7, some "/v/rec.mp4", "T", false, "/v", "30", "640x480"⟩ =
    (⟨some 7, some "/v/rec.mp4", "T", false, "/v", "30", "640x480"⟩,
      [.warn "Already running"]) :=
  C7_start_rejected_while_active _ _ 7 rfl

/-- C8 counterexample: a `start()` that aborts before launching a child
because the required backend tool is missing has already overwritten
`self.output_file` with the new timestamped path (the assignment at
source line 125 precedes the tool checks at lines 127-141), so the
abort does not leave `outputPath` unchanged. -/
theorem C8_counterexample :
    idleState.output_file = some "/old/recording_a.mp4" ∧
    (start_recording startNoToolEnv idleState).1.proc = none ∧
    (start_recording startNoToolEnv idleState).1.output_file =
      some "/v/recording_2024-01-02_03-04-05.mp4" ∧
    (start_recording startNoToolEnv idleState).1.output_file ≠
      idleState.output_file := by
  decide

/-- C8 (amended): `output_file` is unchanged by a `start()` that aborts
on an empty title, but any `start()` that passes the title check and the
directory creation overwrites it with the new timestamped path even when
it then aborts because the backend tool is missing; and `stop()` never
resets `output_file` to `None` (it keeps the raw or final path), so
`outputPath` being non-null does not mean a session started since the
last stop. -/
theorem C8_amended_output_path_lifecycle (env : StartEnv) (s : GuiState)
    (h : s.proc = none) :
    (env.titleInput = "" →
      (start_recording env s).1.output_file = s.output_file) ∧
    (env.titleInput ≠ "" → env.makedirsFails = false → env.wayland = true →
      env.hasWfRecorder = false →
      (start_recording env s).1.output_file =
        some (pyJoin (pyStrip s.output_dir)
          ("recording_" ++ env.ts ++ ".mp4")) ∧
      (start_recording env s).1.proc = none) ∧
    (∀ (senv : StopEnv) (s2 : GuiState) (p : Nat) (out : String),
      s2.proc = some p → s2.output_file = some out →
      (stop_recording senv s2).1.output_file ≠ none) := by
  refine ⟨?_, ?_, ?_⟩
  · intro ht
    simp [start_recording, h, ht]
  · intro ht hmk hw htool
    simp [start_recording, h, ht, hmk, hw, htool]
  · intro senv s2 p out hp ho
    simp only [stop_recording, hp]
    split
    · simp [ho]
    · simpa using postStep_fst_ne_none senv s2 out ho

/-- Witness for the amended C8 at concrete states and environments. -/
theorem C8_witness :
    (start_recording startNoToolEnv idleState).1.output_file =
      some (pyJoin (pyStrip idleState.output_dir)
        ("recording_" ++ startNoToolEnv.ts ++ ".mp4")) ∧
    (start_recording startNoToolEnv idleState).1.proc = none ∧
    (stop_recording stopOkEnv sampleState).1.output_file ≠ none := by
  have h := C8_amended_output_path_lifecycle startNoToolEnv idleState rfl
  have hb := h.2.1 (by decide) rfl rfl rfl
  exact ⟨hb.1, hb.2, h.2.2 stopOkEnv sampleState 7 "/v/rec.mp4" rfl rfl⟩

/-- C9: assuming both signal deliveries succeed, `pause()` from `Running`
followed by `resume()` returns the complete session state to exactly what
it was before the pause. -/
theorem C9_pause_resume_identity (e1 e2 : ToggleEnv) (s : GuiState) (p : Nat)
    (hp : s.proc = some p) (hr : s.paused = false)
    (h1 : e1.sigFails = false) (h2 : e2.sigFails = false) :
    (toggle_pause e2 (toggle_pause e1 s).1).1 = s := by
  cases s
  simp_all only [toggle_pause]
  simp_all

/-- Witness for C9 at a concrete state. -/
theorem C9_witness :
    (toggle_pause ⟨false⟩ (toggle_pause ⟨false⟩
        ⟨some 7, some "/v/rec.mp4", "T", false, "/v", "30", "640x480"⟩).1).1 =
      ⟨some 7, some "/v/rec.mp4", "T", false, "/v", "30", "640x480"⟩ :=
  C9_pause_resume_identity _ _ _ 7 rfl rfl rfl rfl

/-- C10: calling `stop()` or `pause()/resume()` when no child handle
exists is a complete no-op: the state is returned unchanged and the
event trace is empty (no file created, deleted or written, no log entry,
no dialog, no status update). -/
theorem C10_stop_toggle_noop_without_child (senv : StopEnv) (tenv : ToggleEnv)
    (s : GuiState) (h : s.proc = none) :
    stop_recording senv s = (s, []) ∧ toggle_pause tenv s = (s, []) := by
  simp [stop_recording, toggle_pause, h]

/-- Witness for C10 at a concrete state and environments. -/
theorem C10_witness :
    stop_recording ⟨false, true, true, true, true, true, true, true, true, true, true⟩
      ⟨none, some "/v/rec.mp4", "T", false, "/v", "30", "640x480"⟩ =
      (⟨none, some "/v/rec.mp4", "T", false, "/v", "30", "640x480"⟩, []) ∧
    toggle_pause ⟨true⟩ ⟨none, some "/v/rec.mp4", "T", false, "/v", "30", "640x480"⟩ =
      (⟨none, some "/v/rec.mp4", "T", false, "/v", "30", "640x480"⟩, []) :=
  C10_stop_toggle_noop_without_child _ _ _ rfl

end ScreenPro
